import Mathlib

/-!
Verification of the Archon MCP HTTP bridge (two variants of
`src/mcp_server/http_bridge.py`) and the Beads demonstration agent
(`examples/python-agent/agent.py`), via a shallow embedding of the Python
code into Lean.

JSON values are modelled by an inductive `Json`; Python dicts appearing as
request envelopes are association lists `List (String × Json)` (parsed JSON
objects have unique keys, and all observable operations here are key
lookups and key filtering, both order-preserving exactly like Python
dicts).  External effects (the outbound HTTP calls of bridge variant A, the
in-process tool invocations of bridge variant B, and the `bd` subprocess
invocations of the agent) are modelled by oracle functions supplied as a
parameter; an `Except.error msg` oracle outcome models a raised Python
exception whose `str()` is `msg`.
-/

namespace Archon

/-- JSON values as produced by the Python `json` module.  Numbers are
modelled as integers: no claim and no code path in this repository
manipulates fractional numbers, and none of the embedded operations
distinguishes them. -/
inductive Json where
  | null : Json
  | bool (b : Bool) : Json
  | num (n : Int) : Json
  | str (s : String) : Json
  | arr (xs : List Json) : Json
  | obj (kvs : List (String × Json)) : Json

/-- Python truthiness (`if not method:` in the bridge): `None`, `False`,
`0`, `""`, `[]` and `{}` are falsy, everything else truthy. -/
def truthy : Json → Bool
  | Json.null => false
  | Json.bool b => b
  | Json.num n => n != 0
  | Json.str s => s != ""
  | Json.arr xs => !xs.isEmpty
  | Json.obj kvs => !kvs.isEmpty

/-- Python `==` between an arbitrary value and a string literal: true
exactly when the value is that string (no other JSON value compares equal
to a `str` in Python). -/
def isStrEq (v : Json) (s : String) : Bool :=
  match v with
  | Json.str t => t == s
  | _ => false

/-- Python type name, as used in exception messages. -/
def pyTypeName : Json → String
  | Json.null => "NoneType"
  | Json.bool _ => "bool"
  | Json.num _ => "int"
  | Json.str _ => "str"
  | Json.arr _ => "list"
  | Json.obj _ => "dict"

mutual
/-- Python `repr` of a JSON value (string quoting shown with an
apostrophe as Python does; escaping inside strings is elided, it is not
observable by any claim). -/
def pyRepr : Json → String
  | Json.null => "None"
  | Json.bool true => "True"
  | Json.bool false => "False"
  | Json.num n => toString n
  | Json.str s => "\x27" ++ s ++ "\x27"
  | Json.arr xs => "[" ++ String.intercalate ", " (pyReprList xs) ++ "]"
  | Json.obj kvs => "\x7b" ++ String.intercalate ", " (pyReprObj kvs) ++ "\x7d"

def pyReprList : List Json → List String
  | [] => []
  | x :: xs => pyRepr x :: pyReprList xs

def pyReprObj : List (String × Json) → List String
  | [] => []
  | (k, v) :: kvs => ("\x27" ++ k ++ "\x27" ++ ": " ++ pyRepr v) :: pyReprObj kvs
end

/-- Python `str` (used by f-string interpolation of path components):
identity on strings, `repr` otherwise. -/
def pyStr : Json → String
  | Json.str s => s
  | v => pyRepr v

/-- JSON string literal as emitted by `json.dumps`: double quotes; the
escaping of quotes and backslashes is modelled, further escapes (control
characters, non-ASCII) are elided as no claim observes them. -/
def dumpsStr (s : String) : String :=
  "\"" ++ String.join (s.toList.map fun c =>
    if c.toNat = 34 then "\\\"" else if c.toNat = 92 then "\\\\"
    else String.singleton c) ++ "\""

mutual
/-- Python `json.dumps` with default arguments (item separator `", "`,
key separator `": "`). -/
def dumps : Json → String
  | Json.null => "null"
  | Json.bool true => "true"
  | Json.bool false => "false"
  | Json.num n => toString n
  | Json.str s => dumpsStr s
  | Json.arr xs => "[" ++ String.intercalate ", " (dumpsList xs) ++ "]"
  | Json.obj kvs => "\x7b" ++ String.intercalate ", " (dumpsObj kvs) ++ "\x7d"

def dumpsList : List Json → List String
  | [] => []
  | x :: xs => dumps x :: dumpsList xs

def dumpsObj : List (String × Json) → List String
  | [] => []
  | (k, v) :: kvs => (dumpsStr k ++ ": " ++ dumps v) :: dumpsObj kvs
end

/-- Message of the `AttributeError` raised by `v.get(...)` when `v` is not
a dict (the exact CPython wording is abbreviated; no claim observes the
text, only that an exception is raised and routed to the -32603 handler). -/
def noGetAttr (v : Json) : String :=
  "AttributeError: " ++ pyTypeName v ++ " object has no attribute get"

/-- The JSON-RPC error envelope built by the dispatcher for tier-1
(-32600 and -32601) and tier-2 (-32603 with exception text) errors:
`{"jsonrpc": "2.0", "id": request_id, "error": {"code": ..., "message": ...}}`. -/
def errorContent (rid : Json) (code : Int) (msg : String) : Json :=
  Json.obj [("jsonrpc", Json.str "2.0"), ("id", rid),
    ("error", Json.obj [("code", Json.num code), ("message", Json.str msg)])]

/-- The outer-catch envelope (lines 229-237 of the REST bridge): code
-32603, fixed message, and no `"id"` key at all. -/
def outerErrorContent : Json :=
  Json.obj [("jsonrpc", Json.str "2.0"),
    ("error", Json.obj [("code", Json.num (-32603)), ("message", Json.str "Internal server error")])]

/-- The success envelope of bridge variant B (in-process tools): the tool
result is placed under `"result"` unchanged. -/
def successContent (rid : Json) (result : Json) : Json :=
  Json.obj [("jsonrpc", Json.str "2.0"), ("id", rid), ("result", result)]

/-- An HTTP response as produced by the endpoint: status code plus JSON
body (a plain dict returned from the handler is a 200 response). -/
structure HttpResponse where
  status : Nat
  content : Json

/-- Field access on a JSON object (`none` on a missing key or a
non-object), used to state what a response envelope carries. -/
def jsonField (v : Json) (k : String) : Option Json :=
  match v with
  | Json.obj kvs => kvs.lookup k
  | _ => none

/-- Whether a `method` value is one of the six operation names the elif
chain of either bridge recognizes. -/
def knownMethod (m : Json) : Bool :=
  isStrEq m "perform_rag_query" || isStrEq m "get_available_sources" ||
    isStrEq m "search_code_examples" || isStrEq m "manage_project" ||
    isStrEq m "manage_task" || isStrEq m "manage_document"

/- Bridge variant A: `src/ARCHON/python/src/mcp_server/http_bridge.py`,
which forwards each method to the backend REST API over httpx. -/
namespace BridgeA

inductive HttpVerb where
  | get : HttpVerb
  | post : HttpVerb
  | patch : HttpVerb

/-- One outbound httpx call: verb, URL, and JSON body (`none` for calls
sent without a `json=` payload). -/
structure HttpCall where
  verb : HttpVerb
  url : String
  body : Option Json

/-- The downstream REST service, as an oracle: `Except.ok j` models a 2xx
response whose body parses as `j` (so `raise_for_status` passes and
`response.json()` returns `j`); `Except.error e` models any exception on
the call path - network failure, a non-2xx status raised by
`raise_for_status`, or an unparsable body - with `str(exception) = e`. -/
def Backend : Type := HttpCall → Except String Json

/-- Builds the outbound call for `perform_rag_query`: POST
`/api/rag/query` with `query` (default `""`), `source_id` taken from the
`source` param (default `None`), and `match_count` (default 5).
`params.get` raises when `params` is not a dict. -/
def ragQueryCall (serverUrl : String) (params : Json) : Except String HttpCall :=
  match params with
  | Json.obj kvs =>
      Except.ok ⟨HttpVerb.post, serverUrl ++ "/api/rag/query",
        some (Json.obj [
          ("query", (kvs.lookup "query").getD (Json.str "")),
          ("source_id", (kvs.lookup "source").getD Json.null),
          ("match_count", (kvs.lookup "match_count").getD (Json.num 5))])⟩
  | other => Except.error (noGetAttr other)

/-- Builds the outbound call for `search_code_examples`: POST
`/api/rag/code-examples` with `query`, `source_id`, `match_count`
(default 5). -/
def codeExamplesCall (serverUrl : String) (params : Json) : Except String HttpCall :=
  match params with
  | Json.obj kvs =>
      Except.ok ⟨HttpVerb.post, serverUrl ++ "/api/rag/code-examples",
        some (Json.obj [
          ("query", (kvs.lookup "query").getD (Json.str "")),
          ("source_id", (kvs.lookup "source_id").getD Json.null),
          ("match_count", (kvs.lookup "match_count").getD (Json.num 5))])⟩
  | other => Except.error (noGetAttr other)

/-- Builds the outbound call for `manage_project`: `action == "create"` →
POST `/api/projects` with all params except `action`; `action == "get"` →
GET `/api/projects/{project_id}` (default `None`, rendered by `str`);
otherwise PATCH `/api/projects/{project_id}` (default `""`) with all
params except `action` (note: `project_id` is NOT removed from the PATCH
body). -/
def manageProjectCall (serverUrl : String) (params : Json) : Except String HttpCall :=
  match params with
  | Json.obj kvs =>
      let action := (kvs.lookup "action").getD Json.null
      if isStrEq action "create" then
        Except.ok ⟨HttpVerb.post, serverUrl ++ "/api/projects",
          some (Json.obj (kvs.filter fun kv => kv.1 != "action"))⟩
      else if isStrEq action "get" then
        Except.ok ⟨HttpVerb.get,
          serverUrl ++ "/api/projects/" ++ pyStr ((kvs.lookup "project_id").getD Json.null), none⟩
      else
        Except.ok ⟨HttpVerb.patch,
          serverUrl ++ "/api/projects/" ++ pyStr ((kvs.lookup "project_id").getD (Json.str "")),
          some (Json.obj (kvs.filter fun kv => kv.1 != "action"))⟩
  | other => Except.error (noGetAttr other)

/-- Builds the outbound call for `manage_task`: create → POST
`/api/projects/{project_id}/tasks` with params minus `action`/`project_id`;
otherwise PATCH `/api/projects/{project_id}/tasks/{task_id}` with params
minus `action`/`project_id`/`task_id`. -/
def manageTaskCall (serverUrl : String) (params : Json) : Except String HttpCall :=
  match params with
  | Json.obj kvs =>
      let action := (kvs.lookup "action").getD Json.null
      let pid := pyStr ((kvs.lookup "project_id").getD (Json.str ""))
      if isStrEq action "create" then
        Except.ok ⟨HttpVerb.post, serverUrl ++ "/api/projects/" ++ pid ++ "/tasks",
          some (Json.obj (kvs.filter fun kv => kv.1 != "action" && kv.1 != "project_id"))⟩
      else
        let tid := pyStr ((kvs.lookup "task_id").getD (Json.str ""))
        Except.ok ⟨HttpVerb.patch, serverUrl ++ "/api/projects/" ++ pid ++ "/tasks/" ++ tid,
          some (Json.obj (kvs.filter fun kv =>
            kv.1 != "action" && kv.1 != "project_id" && kv.1 != "task_id"))⟩
  | other => Except.error (noGetAttr other)

/-- Builds the outbound call for `manage_document`: create → POST
`/api/projects/{project_id}/documents` with params minus
`action`/`project_id`; otherwise PATCH
`/api/projects/{project_id}/documents/{doc_id}` with params minus
`action`/`project_id`/`doc_id`. -/
def manageDocumentCall (serverUrl : String) (params : Json) : Except String HttpCall :=
  match params with
  | Json.obj kvs =>
      let action := (kvs.lookup "action").getD Json.null
      let pid := pyStr ((kvs.lookup "project_id").getD (Json.str ""))
      if isStrEq action "create" then
        Except.ok ⟨HttpVerb.post, serverUrl ++ "/api/projects/" ++ pid ++ "/documents",
          some (Json.obj (kvs.filter fun kv => kv.1 != "action" && kv.1 != "project_id"))⟩
      else
        let did := pyStr ((kvs.lookup "doc_id").getD (Json.str ""))
        Except.ok ⟨HttpVerb.patch, serverUrl ++ "/api/projects/" ++ pid ++ "/documents/" ++ did,
          some (Json.obj (kvs.filter fun kv =>
            kv.1 != "action" && kv.1 != "project_id" && kv.1 != "doc_id"))⟩
  | other => Except.error (noGetAttr other)

/-- Runs one dispatched branch under the inner `try`: a failure while
building the call (before any I/O) or while performing it becomes the
tier-2 -32603 envelope carrying the exception text and the request id; a
successful call wraps `json.dumps(result)` - a JSON string, not the raw
value - under `"result"` in a 200 response.  The second component is the
list of outbound calls attempted. -/
def finish (backend : Backend) (rid : Json) (c : Except String HttpCall) :
    HttpResponse × List HttpCall :=
  match c with
  | Except.error e => (⟨500, errorContent rid (-32603) e⟩, [])
  | Except.ok call =>
      match backend call with
      | Except.ok r => (⟨200, successContent rid (Json.str (dumps r))⟩, [call])
      | Except.error e => (⟨500, errorContent rid (-32603) e⟩, [call])

/-- The `/rpc` handler of bridge variant A.  `port` is the
`ARCHON_SERVER_PORT` environment value (default "8181"); `request` is
`Except.ok` of the parsed JSON body (FastAPI guarantees a dict), while
`Except.error` models an unexpected exception raised in the envelope
prologue itself, handled by the outer `except` with no id recovered.
Returns the HTTP response together with the list of outbound calls made. -/
def rpc_endpoint (port : String) (backend : Backend)
    (request : Except String (List (String × Json))) : HttpResponse × List HttpCall :=
  match request with
  | Except.error _ => (⟨500, outerErrorContent⟩, [])
  | Except.ok req =>
      let method := (req.lookup "method").getD Json.null
      let params := (req.lookup "params").getD (Json.obj [])
      let requestId := (req.lookup "id").getD (Json.num 1)
      if truthy method then
        let serverUrl := "http://archon-server:" ++ port
        if isStrEq method "perform_rag_query" then
          finish backend requestId (ragQueryCall serverUrl params)
        else if isStrEq method "get_available_sources" then
          finish backend requestId
            (Except.ok ⟨HttpVerb.get, serverUrl ++ "/api/rag/sources", none⟩)
        else if isStrEq method "search_code_examples" then
          finish backend requestId (codeExamplesCall serverUrl params)
        else if isStrEq method "manage_project" then
          finish backend requestId (manageProjectCall serverUrl params)
        else if isStrEq method "manage_task" then
          finish backend requestId (manageTaskCall serverUrl params)
        else if isStrEq method "manage_document" then
          finish backend requestId (manageDocumentCall serverUrl params)
        else
          (⟨404, errorContent requestId (-32601)
            ("Method \x27" ++ pyStr method ++ "\x27 not found")⟩, [])
      else
        (⟨400, errorContent requestId (-32600) "Method not specified"⟩, [])

/-- The `/health` handler: a constant with no inputs, no reference to the
backend, and no effects. -/
def health_endpoint : Json :=
  Json.obj [("status", Json.str "healthy"), ("service", Json.str "mcp-http-bridge"),
    ("tools_available", Json.bool true)]

end BridgeA

/- Bridge variant B: `src/python/src/mcp_server/http_bridge.py`, which
invokes the MCP tool functions in-process (with a freshly built context
object, not modelled: its construction cannot fail and is not observable)
instead of issuing REST calls. -/
namespace BridgeB

/-- One in-process tool invocation: the name of the tool function and its
keyword arguments in the order the call site passes them. -/
structure ToolCall where
  name : String
  args : List (String × Json)

/-- The tool layer as an oracle: `Except.ok j` models the awaited tool
returning `j`; `Except.error e` models the tool (or argument evaluation)
raising an exception with `str(exception) = e`. -/
def Tools : Type := ToolCall → Except String Json

/-- Builds the `rag_search_knowledge_base` invocation: `query` (default
`""`), `source_id` from the `source` param (default `None`),
`match_count` (default 5).  `params.get` raises when `params` is not a
dict. -/
def ragQueryTool (params : Json) : Except String ToolCall :=
  match params with
  | Json.obj kvs =>
      Except.ok ⟨"rag_search_knowledge_base", [
        ("query", (kvs.lookup "query").getD (Json.str "")),
        ("source_id", (kvs.lookup "source").getD Json.null),
        ("match_count", (kvs.lookup "match_count").getD (Json.num 5))]⟩
  | other => Except.error (noGetAttr other)

/-- Builds the `rag_search_code_examples` invocation. -/
def codeExamplesTool (params : Json) : Except String ToolCall :=
  match params with
  | Json.obj kvs =>
      Except.ok ⟨"rag_search_code_examples", [
        ("query", (kvs.lookup "query").getD (Json.str "")),
        ("source_id", (kvs.lookup "source_id").getD Json.null),
        ("match_count", (kvs.lookup "match_count").getD (Json.num 5))]⟩
  | other => Except.error (noGetAttr other)

/-- Builds the `manage_project` invocation: `action` (default `None`)
followed by every param except `action`, splatted as keyword arguments. -/
def manageProjectTool (params : Json) : Except String ToolCall :=
  match params with
  | Json.obj kvs =>
      Except.ok ⟨"manage_project",
        ("action", (kvs.lookup "action").getD Json.null)
          :: kvs.filter fun kv => kv.1 != "action"⟩
  | other => Except.error (noGetAttr other)

/-- Builds the `manage_document` invocation: `action`, `project_id`
(both defaulting to `None`), then every param except those two. -/
def manageDocumentTool (params : Json) : Except String ToolCall :=
  match params with
  | Json.obj kvs =>
      Except.ok ⟨"manage_document",
        ("action", (kvs.lookup "action").getD Json.null)
          :: ("project_id", (kvs.lookup "project_id").getD Json.null)
          :: kvs.filter fun kv => kv.1 != "action" && kv.1 != "project_id"⟩
  | other => Except.error (noGetAttr other)

/-- Builds the `manage_task` invocation: same shape as `manage_document`. -/
def manageTaskTool (params : Json) : Except String ToolCall :=
  match params with
  | Json.obj kvs =>
      Except.ok ⟨"manage_task",
        ("action", (kvs.lookup "action").getD Json.null)
          :: ("project_id", (kvs.lookup "project_id").getD Json.null)
          :: kvs.filter fun kv => kv.1 != "action" && kv.1 != "project_id"⟩
  | other => Except.error (noGetAttr other)

/-- Runs one dispatched branch under the inner `try`: failures become the
tier-2 -32603 envelope with the request id; a successful tool result is
placed under `"result"` verbatim in a 200 response. -/
def finish (tools : Tools) (rid : Json) (c : Except String ToolCall) :
    HttpResponse × List ToolCall :=
  match c with
  | Except.error e => (⟨500, errorContent rid (-32603) e⟩, [])
  | Except.ok call =>
      match tools call with
      | Except.ok r => (⟨200, successContent rid r⟩, [call])
      | Except.error e => (⟨500, errorContent rid (-32603) e⟩, [call])

/-- The `/rpc` handler of bridge variant B.  Same envelope logic as
variant A; the elif chain checks `manage_project`, then `manage_document`,
then `manage_task`. -/
def rpc_endpoint (tools : Tools)
    (request : Except String (List (String × Json))) : HttpResponse × List ToolCall :=
  match request with
  | Except.error _ => (⟨500, outerErrorContent⟩, [])
  | Except.ok req =>
      let method := (req.lookup "method").getD Json.null
      let params := (req.lookup "params").getD (Json.obj [])
      let requestId := (req.lookup "id").getD (Json.num 1)
      if truthy method then
        if isStrEq method "perform_rag_query" then
          finish tools requestId (ragQueryTool params)
        else if isStrEq method "get_available_sources" then
          finish tools requestId (Except.ok ⟨"rag_get_available_sources", []⟩)
        else if isStrEq method "search_code_examples" then
          finish tools requestId (codeExamplesTool params)
        else if isStrEq method "manage_project" then
          finish tools requestId (manageProjectTool params)
        else if isStrEq method "manage_document" then
          finish tools requestId (manageDocumentTool params)
        else if isStrEq method "manage_task" then
          finish tools requestId (manageTaskTool params)
        else
          (⟨404, errorContent requestId (-32601)
            ("Method \x27" ++ pyStr method ++ "\x27 not found")⟩, [])
      else
        (⟨400, errorContent requestId (-32600) "Method not specified"⟩, [])

end BridgeB

/- The Beads demonstration agent,
`src/_user_tools/beads-main/examples/python-agent/agent.py`.  Every
external effect is an invocation of the `bd` binary; the environment is an
oracle `Nat → BdReply` giving the outcome of the i-th invocation, with the
invocation counter threaded explicitly.  `print` calls are pure string
formatting and are not modelled, except that f-string field accesses on
untrusted dicts (which can raise `KeyError`) are. -/
namespace Agent

/-- Outcome of one external `bd` invocation: `err` is a nonzero exit
(`CalledProcessError`, `check=True`) or an undecodable stdout
(`json.JSONDecodeError`) - both propagate as exceptions and no claim
distinguishes them; `out j` is a zero exit whose stdout parses as `j`;
`empty` is a zero exit with blank stdout. -/
inductive BdReply where
  | err (msg : String) : BdReply
  | out (j : Json) : BdReply
  | empty : BdReply

/-- Model of `run_bd`: run `bd ... --json`, check the exit code, parse the stdout
JSON, returning `{}` for blank output.  Returns the parsed value and the
next invocation index. -/
def run_bd (env : Nat → BdReply) (i : Nat) : Except String (Json × Nat) :=
  match env i with
  | BdReply.err m => Except.error m
  | BdReply.out j => Except.ok (j, i + 1)
  | BdReply.empty => Except.ok (Json.obj [], i + 1)

/-- Python `d[k]` subscript: raises `KeyError` on a missing key and
`TypeError` on a non-dict (message texts abbreviated, unobserved). -/
def getItem (v : Json) (k : String) : Except String Json :=
  match v with
  | Json.obj kvs =>
      match kvs.lookup k with
      | some x => Except.ok x
      | none => Except.error ("KeyError: " ++ k)
  | other => Except.error ("TypeError: " ++ pyTypeName other ++ " is not subscriptable")

/-- ASCII lower-casing of one character (the Python `str.lower` also maps
non-ASCII letters; titles here are only compared against the ASCII
patterns "implement" and "add", for which ASCII lowering agrees). -/
def asciiLower (c : Char) : Char :=
  if 65 ≤ c.toNat ∧ c.toNat ≤ 90 then Char.ofNat (c.toNat + 32) else c

/-- Model of `title.lower()`: only defined on strings, `AttributeError` otherwise. -/
def pyLower : Json → Except String String
  | Json.str s => Except.ok (String.mk (s.toList.map asciiLower))
  | v => Except.error ("AttributeError: " ++ pyTypeName v ++ " object has no attribute lower")

/-- Character-list substring occurrence (used for the Python
`pat in s` on strings): the pattern occurs as a contiguous run. -/
def listContains (pat : List Char) : List Char → Bool
  | [] => pat.isEmpty
  | c :: rest => pat.isPrefixOf (c :: rest) || listContains pat rest

/-- Python `pat in s` for strings. -/
def strContains (pat s : String) : Bool :=
  listContains pat.toList s.toList

/-- Model of `find_ready_work`: `bd ready --limit 1 --json`; the first element when
the output is a non-empty list, else `None`. -/
def find_ready_work (env : Nat → BdReply) (i : Nat) : Except String (Option Json × Nat) := do
  let (ready, i2) ← run_bd env i
  match ready with
  | Json.arr (x :: _) => pure (some x, i2)
  | _ => pure (none, i2)

/-- Model of `claim_task`: `bd update <id> --status in_progress --json` (result
unused by the caller). -/
def claim_task (env : Nat → BdReply) (i : Nat) : Except String (Json × Nat) :=
  run_bd env i

/-- Model of `create_issue`: `bd create ... --json`, returning the created issue. -/
def create_issue (env : Nat → BdReply) (i : Nat) : Except String (Json × Nat) :=
  run_bd env i

/-- Model of `link_discovery`: a bare `subprocess.run(["bd", "dep", "add", ...],
check=True)` - no JSON parsing, only the exit code matters. -/
def link_discovery (env : Nat → BdReply) (i : Nat) : Except String Nat :=
  match env i with
  | BdReply.err m => Except.error m
  | _ => Except.ok (i + 1)

/-- Model of `complete_task`: `bd close <id> --reason ... --json`. -/
def complete_task (env : Nat → BdReply) (i : Nat) : Except String (Json × Nat) :=
  run_bd env i

/-- Model of `simulate_work`: reads `id`, `title`, `priority`, `issue_type` from
the issue dict (each access can raise `KeyError`); when the lowercased
title contains "implement" or "add", creates a follow-up issue, reads its
`id`, links it to the parent, and reports that new work was discovered. -/
def simulate_work (env : Nat → BdReply) (i : Nat) (issue : Json) :
    Except String (Bool × Nat) := do
  let _issueId ← getItem issue "id"
  let title ← getItem issue "title"
  let _priority ← getItem issue "priority"
  let _issueType ← getItem issue "issue_type"
  let low ← pyLower title
  if strContains "implement" low || strContains "add" low then do
    let (newIssue, i2) ← create_issue env i
    let _newId ← getItem newIssue "id"
    let i3 ← link_discovery env i2
    pure (true, i3)
  else
    pure (false, i)

/-- Model of `run_once`: one work cycle - find ready work (returning `False` when
none), claim it by its `id`, simulate the work, close it, return `True`. -/
def run_once (env : Nat → BdReply) (i : Nat) : Except String (Bool × Nat) := do
  let (found, i2) ← find_ready_work env i
  match found with
  | none => pure (false, i2)
  | some issue => do
      let _issueId ← getItem issue "id"
      let (_claimed, i3) ← claim_task env i2
      let (_discovered, i4) ← simulate_work env i3 issue
      let _issueId2 ← getItem issue "id"
      let (_closed, i5) ← complete_task env i4
      pure (true, i5)

/-- Default `max_iterations` of `run`. -/
def defaultMaxIterations : Nat := 10

/-- The loop body of `run`, from invocation index `i` with the given
number of loop iterations remaining.  Returns how many cycles (calls of
`run_once`) were executed, paired with the final outcome: `Except.ok ()`
when the loop ended normally (bound exhausted or no ready work),
`Except.error e` when a cycle raised and the exception escaped `run`. -/
def runFrom (env : Nat → BdReply) : Nat → Nat → Nat × Except String Unit
  | 0, _ => (0, Except.ok ())
  | Nat.succ n, i =>
      match run_once env i with
      | Except.error e => (1, Except.error e)
      | Except.ok (true, i2) =>
          let r := runFrom env n i2
          (r.1 + 1, r.2)
      | Except.ok (false, _) => (1, Except.ok ())

/-- Model of `run(max_iterations)`: up to `maxIterations` cycles starting from the
first `bd` invocation. -/
def run (env : Nat → BdReply) (maxIterations : Nat) : Nat × Except String Unit :=
  runFrom env maxIterations 0

end Agent

/- Concrete oracles and requests used by counterexample and witness
theorems. -/

/-- A downstream oracle that always answers with JSON `null`. -/
def nullBackend : BridgeA.Backend := fun _ => Except.ok Json.null

/-- A downstream oracle that always answers with the object `{"a": 1}`. -/
def objBackend : BridgeA.Backend := fun _ => Except.ok (Json.obj [("a", Json.num 1)])

/-- A tool oracle (variant B) that always returns the object `{"a": 1}`. -/
def objTools : BridgeB.Tools := fun _ => Except.ok (Json.obj [("a", Json.num 1)])

/-- A `manage_project` request whose action is neither `create` nor
`get`. -/
def updateProjectReq : List (String × Json) :=
  [("method", Json.str "manage_project"),
   ("params", Json.obj [("action", Json.str "update"),
     ("project_id", Json.str "P1"), ("name", Json.str "X")]),
   ("id", Json.num 7)]

/-- A `perform_rag_query` request that does not supply `match_count`. -/
def ragReq : List (String × Json) :=
  [("method", Json.str "perform_rag_query"),
   ("params", Json.obj [("query", Json.str "foo")]),
   ("id", Json.num 1)]

/-- A tracker environment in which `bd ready` immediately reports no
ready work (blank stdout parses to `{}`, which is not a non-empty list). -/
def idleEnv : Nat → Agent.BdReply := fun _ => Agent.BdReply.empty

/-! Helper lemmas shared by the claim theorems. -/

theorem jsonField_errorContent (rid : Json) (code : Int) (msg : String) :
    jsonField (errorContent rid code msg) "id" = some rid := rfl

theorem jsonField_successContent (rid r : Json) :
    jsonField (successContent rid r) "id" = some rid := rfl

theorem finishA_id (backend : BridgeA.Backend) (rid : Json)
    (c : Except String BridgeA.HttpCall) :
    jsonField ((BridgeA.finish backend rid c).1.content) "id" = some rid := by
  cases c with
  | error e => rfl
  | ok call =>
    simp only [BridgeA.finish]
    cases backend call with
    | ok r => rfl
    | error e => rfl

theorem finishA_calls (backend : BridgeA.Backend) (rid : Json) (call : BridgeA.HttpCall) :
    (BridgeA.finish backend rid (Except.ok call)).2 = [call] := by
  simp only [BridgeA.finish]
  cases backend call <;> rfl

theorem finishA_ok (backend : BridgeA.Backend) (rid : Json) (call : BridgeA.HttpCall)
    (r : Json) (h : backend call = Except.ok r) :
    BridgeA.finish backend rid (Except.ok call)
      = (⟨200, successContent rid (Json.str (dumps r))⟩, [call]) := by
  simp only [BridgeA.finish, h]

theorem finishB_id (tools : BridgeB.Tools) (rid : Json)
    (c : Except String BridgeB.ToolCall) :
    jsonField ((BridgeB.finish tools rid c).1.content) "id" = some rid := by
  cases c with
  | error e => rfl
  | ok call =>
    simp only [BridgeB.finish]
    cases tools call with
    | ok r => rfl
    | error e => rfl

theorem finishB_calls (tools : BridgeB.Tools) (rid : Json) (call : BridgeB.ToolCall) :
    (BridgeB.finish tools rid (Except.ok call)).2 = [call] := by
  simp only [BridgeB.finish]
  cases tools call <;> rfl

theorem finishB_ok (tools : BridgeB.Tools) (rid : Json) (call : BridgeB.ToolCall)
    (r : Json) (h : tools call = Except.ok r) :
    BridgeB.finish tools rid (Except.ok call) = (⟨200, successContent rid r⟩, [call]) := by
  simp only [BridgeB.finish, h]

theorem lookup_filterKey_self (k : String) :
    ∀ l : List (String × Json), (l.filter fun kv => kv.1 != k).lookup k = none
  | [] => rfl
  | (a, v) :: es => by
    by_cases h : a = k
    · simp [List.filter_cons, h, lookup_filterKey_self k es]
    · simp [List.filter_cons, h, List.lookup, beq_eq_false_iff_ne.mpr (Ne.symm h),
        lookup_filterKey_self k es]

theorem lookup_filterKey_ne (k k2 : String) (h : k2 ≠ k) :
    ∀ l : List (String × Json), (l.filter fun kv => kv.1 != k).lookup k2 = l.lookup k2
  | [] => rfl
  | (a, v) :: es => by
    by_cases ha : a = k
    · simp [List.filter_cons, ha, List.lookup, beq_eq_false_iff_ne.mpr h,
        lookup_filterKey_ne k k2 h es]
    · by_cases h2 : k2 = a
      · simp [List.filter_cons, ha, List.lookup, h2]
      · simp [List.filter_cons, ha, List.lookup, beq_eq_false_iff_ne.mpr h2,
        lookup_filterKey_ne k k2 h es]

theorem runFrom_fst_le (env : Nat → Agent.BdReply) :
    ∀ (fuel i : Nat), (Agent.runFrom env fuel i).1 ≤ fuel
  | 0, _ => Nat.le_refl 0
  | Nat.succ n, i => by
    simp only [Agent.runFrom]
    cases Agent.run_once env i with
    | error e => simp
    | ok p =>
      obtain ⟨b, i2⟩ := p
      cases b with
      | false => simp
      | true => simpa using Nat.succ_le_succ (runFrom_fst_le env n i2)

theorem runFrom_stop (env : Nat → Agent.BdReply) (fuel i i2 : Nat)
    (h : Agent.run_once env i = Except.ok (false, i2)) :
    (Agent.runFrom env fuel i).1 ≤ 1 := by
  cases fuel with
  | zero => exact Nat.zero_le 1
  | succ n => simp [Agent.runFrom, h]

/-! Claim theorems. -/

/-- C3: for every request envelope that lacks a `"method"` value, the
dispatcher returns an error envelope with `error.code == -32600` and
message "Method not specified" on an HTTP 400 response, echoing the
request id (default 1), and makes no downstream call (the call trace is
empty). -/
theorem missing_method_rejected (port : String) (backend : BridgeA.Backend)
    (req : List (String × Json)) (h : req.lookup "method" = none) :
    BridgeA.rpc_endpoint port backend (Except.ok req)
      = (⟨400, errorContent ((req.lookup "id").getD (Json.num 1)) (-32600)
          "Method not specified"⟩, []) := by
  simp [BridgeA.rpc_endpoint, h, truthy]

/-- Witness for `missing_method_rejected`: a concrete request carrying
only an id. -/
theorem missing_method_rejected_witness :
    BridgeA.rpc_endpoint "8181" nullBackend (Except.ok [("id", Json.num 3)])
      = (⟨400, errorContent (Json.num 3) (-32600) "Method not specified"⟩, []) :=
  missing_method_rejected "8181" nullBackend [("id", Json.num 3)] rfl

/-- C6: a failure raised during envelope parsing itself (outside the
method-dispatch boundary, modelled by the `Except.error` request input)
yields code -32603 with the fixed message "Internal server error" on an
HTTP 500 response, the envelope contains no `"id"` field at all, and no
downstream call is made. -/
theorem outer_failure_envelope (port : String) (backend : BridgeA.Backend) (e : String) :
    BridgeA.rpc_endpoint port backend (Except.error e) = (⟨500, outerErrorContent⟩, [])
      ∧ jsonField outerErrorContent "id" = none
      ∧ jsonField outerErrorContent "error"
          = some (Json.obj [("code", Json.num (-32603)),
              ("message", Json.str "Internal server error")]) :=
  ⟨rfl, rfl, rfl⟩

/-- C7: the health endpoint returns exactly `{status: "healthy", service:
"mcp-http-bridge", tools_available: true}`; in the source the handler
takes no inputs, reads no state and performs no calls, so the embedded
endpoint is a constant and the response is the same on every
invocation. -/
theorem health_endpoint_constant :
    BridgeA.health_endpoint
      = Json.obj [("status", Json.str "healthy"),
          ("service", Json.str "mcp-http-bridge"),
          ("tools_available", Json.bool true)] := rfl

/-- C9: a request whose `"method"` key holds a falsy value (empty string,
null, false, 0, ...) is treated exactly like a request with no method at
all: both bridge variants return the -32600 "Method not specified"
envelope on HTTP 400 with no downstream call, and the variant A response is
unchanged when the `"method"` key is removed from the request
altogether. -/
theorem falsy_method_like_missing (port : String) (backend : BridgeA.Backend)
    (tools : BridgeB.Tools) (req : List (String × Json)) (m : Json)
    (hm : req.lookup "method" = some m) (hf : truthy m = false) :
    BridgeA.rpc_endpoint port backend (Except.ok req)
        = (⟨400, errorContent ((req.lookup "id").getD (Json.num 1)) (-32600)
            "Method not specified"⟩, [])
      ∧ BridgeB.rpc_endpoint tools (Except.ok req)
        = (⟨400, errorContent ((req.lookup "id").getD (Json.num 1)) (-32600)
            "Method not specified"⟩, [])
      ∧ BridgeA.rpc_endpoint port backend (Except.ok req)
        = BridgeA.rpc_endpoint port backend
            (Except.ok (req.filter fun kv => kv.1 != "method")) := by
  have h1 : BridgeA.rpc_endpoint port backend (Except.ok req)
      = (⟨400, errorContent ((req.lookup "id").getD (Json.num 1)) (-32600)
          "Method not specified"⟩, []) := by
    simp [BridgeA.rpc_endpoint, hm, hf]
  have h2 : BridgeA.rpc_endpoint port backend
      (Except.ok (req.filter fun kv => kv.1 != "method"))
      = (⟨400, errorContent ((req.lookup "id").getD (Json.num 1)) (-32600)
          "Method not specified"⟩, []) := by
    simp [BridgeA.rpc_endpoint, lookup_filterKey_self "method" req,
      lookup_filterKey_ne "method" "id" (by decide) req, truthy]
  exact ⟨h1, by simp [BridgeB.rpc_endpoint, hm, hf], h1.trans h2.symm⟩

/-- Witness for `falsy_method_like_missing`: the method is the empty
string. -/
theorem falsy_method_like_missing_witness :
    BridgeA.rpc_endpoint "8181" nullBackend
        (Except.ok [("method", Json.str ""), ("id", Json.num 2)])
      = (⟨400, errorContent (Json.num 2) (-32600) "Method not specified"⟩, [])
      ∧ BridgeB.rpc_endpoint objTools
        (Except.ok [("method", Json.str ""), ("id", Json.num 2)])
      = (⟨400, errorContent (Json.num 2) (-32600) "Method not specified"⟩, [])
      ∧ BridgeA.rpc_endpoint "8181" nullBackend
        (Except.ok [("method", Json.str ""), ("id", Json.num 2)])
      = BridgeA.rpc_endpoint "8181" nullBackend
        (Except.ok (([("method", Json.str ""), ("id", Json.num 2)] :
          List (String × Json)).filter fun kv => kv.1 != "method")) :=
  falsy_method_like_missing "8181" nullBackend objTools
    [("method", Json.str ""), ("id", Json.num 2)] (Json.str "") rfl rfl

/-- C10: the tier-1 error envelopes (code -32600 for a missing or falsy
method, code -32601 for an unknown method) also echo the id of the request:
the supplied `"id"` value when present, else the default 1; only the
outer-catch envelope omits it. -/
theorem tier1_error_id_echo (port : String) (backend : BridgeA.Backend)
    (req : List (String × Json))
    (h : truthy ((req.lookup "method").getD Json.null) = false
        ∨ knownMethod ((req.lookup "method").getD Json.null) = false) :
    jsonField ((BridgeA.rpc_endpoint port backend (Except.ok req)).1.content) "id"
      = some ((req.lookup "id").getD (Json.num 1)) := by
  by_cases ht : truthy ((req.lookup "method").getD Json.null)
  · rcases h with h | h
    · rw [ht] at h; exact absurd h (by simp)
    · simp only [knownMethod, Bool.or_eq_false_iff] at h
      obtain ⟨⟨⟨⟨⟨h1, h2⟩, h3⟩, h4⟩, h5⟩, h6⟩ := h
      simp [BridgeA.rpc_endpoint, ht, h1, h2, h3, h4, h5, h6, jsonField_errorContent]
  · simp [BridgeA.rpc_endpoint, ht, jsonField_errorContent]

/-- Witness for `tier1_error_id_echo`: an unknown truthy method with no
`"id"` key, echoing the default id 1. -/
theorem tier1_error_id_echo_witness :
    jsonField ((BridgeA.rpc_endpoint "8181" nullBackend
        (Except.ok [("method", Json.str "bogus")])).1.content) "id"
      = some (Json.num 1) :=
  tier1_error_id_echo "8181" nullBackend [("method", Json.str "bogus")]
    (Or.inr rfl)

/-- C5: round-trip of the request id - for every well-formed request
(method among the six known operation names) that supplies an `"id"`
value of any type, the response envelope (the success envelope or the
tier-2 -32603 downstream-failure envelope, the only outputs of the known
branches) carries that same id unchanged. -/
theorem id_round_trip (port : String) (backend : BridgeA.Backend)
    (req : List (String × Json)) (m v : Json)
    (hm : req.lookup "method" = some m) (hk : knownMethod m = true)
    (hv : req.lookup "id" = some v) :
    jsonField ((BridgeA.rpc_endpoint port backend (Except.ok req)).1.content) "id"
      = some v := by
  cases m with
  | str s =>
    simp only [knownMethod, isStrEq, Bool.or_eq_true, beq_iff_eq] at hk
    rcases hk with ((((h | h) | h) | h) | h) | h <;> subst h <;>
      simp [BridgeA.rpc_endpoint, hm, hv, truthy, isStrEq, finishA_id]
  | null => simp [knownMethod, isStrEq] at hk
  | bool b => simp [knownMethod, isStrEq] at hk
  | num n => simp [knownMethod, isStrEq] at hk
  | arr xs => simp [knownMethod, isStrEq] at hk
  | obj kvs => simp [knownMethod, isStrEq] at hk

/-- Witness for `id_round_trip`: a `get_available_sources` request with a
null id (a falsy id value is still echoed). -/
theorem id_round_trip_witness :
    jsonField ((BridgeA.rpc_endpoint "8181" nullBackend
        (Except.ok [("method", Json.str "get_available_sources"),
          ("id", Json.null)])).1.content) "id"
      = some Json.null :=
  id_round_trip "8181" nullBackend
    [("method", Json.str "get_available_sources"), ("id", Json.null)]
    (Json.str "get_available_sources") Json.null rfl rfl rfl

/-- C4 counterexample: the claim is false as stated - a request whose
`"method"` key is present with the empty string (a value that is not one
of the six operation names) is answered with the -32600 "Method not
specified" envelope on HTTP 400, not with -32601 on HTTP 404. -/
theorem unknown_method_falsy_counterexample :
    BridgeA.rpc_endpoint "8181" nullBackend
        (Except.ok [("method", Json.str ""), ("id", Json.num 3)])
      = (⟨400, errorContent (Json.num 3) (-32600) "Method not specified"⟩, [])
      ∧ ¬ ((BridgeA.rpc_endpoint "8181" nullBackend
          (Except.ok [("method", Json.str ""), ("id", Json.num 3)])).1.status = 404) :=
  ⟨rfl, by decide⟩

/-- C4 (amended): for every request whose `"method"` value is present and
truthy but not one of the six known operation names, the dispatcher
returns an error envelope with `error.code == -32601` on an HTTP 404
response and makes no downstream call; a present-but-falsy method is
instead rejected as missing (-32600, HTTP 400). -/
theorem unknown_method_rejected (port : String) (backend : BridgeA.Backend)
    (req : List (String × Json)) (m : Json)
    (hm : req.lookup "method" = some m) (ht : truthy m = true)
    (hk : knownMethod m = false) :
    BridgeA.rpc_endpoint port backend (Except.ok req)
      = (⟨404, errorContent ((req.lookup "id").getD (Json.num 1)) (-32601)
          ("Method \x27" ++ pyStr m ++ "\x27 not found")⟩, []) := by
  simp only [knownMethod, Bool.or_eq_false_iff] at hk
  obtain ⟨⟨⟨⟨⟨h1, h2⟩, h3⟩, h4⟩, h5⟩, h6⟩ := hk
  simp [BridgeA.rpc_endpoint, hm, ht, h1, h2, h3, h4, h5, h6]

/-- Witness for `unknown_method_rejected`: the unknown method "bogus". -/
theorem unknown_method_rejected_witness :
    BridgeA.rpc_endpoint "8181" nullBackend
        (Except.ok [("method", Json.str "bogus"), ("id", Json.num 9)])
      = (⟨404, errorContent (Json.num 9) (-32601)
          "Method \x27bogus\x27 not found"⟩, []) :=
  unknown_method_rejected "8181" nullBackend
    [("method", Json.str "bogus"), ("id", Json.num 9)] (Json.str "bogus")
    rfl rfl rfl

/-- C1 counterexample: the claim is false as stated - for a
`manage_project` request with action "update", the PATCH body is the
request params minus only the `"action"` key; the `"project_id"` key is
retained in the body, so the body is not "params minus both action and
project_id". -/
theorem manage_project_patch_counterexample :
    (BridgeA.rpc_endpoint "8181" nullBackend (Except.ok updateProjectReq)).2
      = [⟨BridgeA.HttpVerb.patch, "http://archon-server:8181/api/projects/P1",
          some (Json.obj [("project_id", Json.str "P1"), ("name", Json.str "X")])⟩]
      ∧ ¬ ((BridgeA.rpc_endpoint "8181" nullBackend (Except.ok updateProjectReq)).2
        = [⟨BridgeA.HttpVerb.patch, "http://archon-server:8181/api/projects/P1",
            some (Json.obj [("name", Json.str "X")])⟩]) := by
  refine ⟨rfl, fun hcontra => ?_⟩
  rw [show (BridgeA.rpc_endpoint "8181" nullBackend (Except.ok updateProjectReq)).2
      = [⟨BridgeA.HttpVerb.patch, "http://archon-server:8181/api/projects/P1",
          some (Json.obj [("project_id", Json.str "P1"),
            ("name", Json.str "X")])⟩] from rfl] at hcontra
  simp at hcontra

/-- C1 (amended): for every `manage_project` request whose action is
neither "create" nor "get", the dispatcher issues exactly one PATCH to
`/api/projects/{project_id}` whose body contains exactly the request
params minus the `"action"` key; the `"project_id"` key is retained in
the body. -/
theorem manage_project_update_patch (port : String) (backend : BridgeA.Backend)
    (req kvs : List (String × Json))
    (hm : req.lookup "method" = some (Json.str "manage_project"))
    (hp : req.lookup "params" = some (Json.obj kvs))
    (hc : isStrEq ((kvs.lookup "action").getD Json.null) "create" = false)
    (hg : isStrEq ((kvs.lookup "action").getD Json.null) "get" = false) :
    (BridgeA.rpc_endpoint port backend (Except.ok req)).2
      = [⟨BridgeA.HttpVerb.patch,
          "http://archon-server:" ++ port ++ "/api/projects/"
            ++ pyStr ((kvs.lookup "project_id").getD (Json.str "")),
          some (Json.obj (kvs.filter fun kv => kv.1 != "action"))⟩] := by
  have hcall : BridgeA.manageProjectCall ("http://archon-server:" ++ port) (Json.obj kvs)
      = Except.ok ⟨BridgeA.HttpVerb.patch,
          "http://archon-server:" ++ port ++ "/api/projects/"
            ++ pyStr ((kvs.lookup "project_id").getD (Json.str "")),
          some (Json.obj (kvs.filter fun kv => kv.1 != "action"))⟩ := by
    simp only [BridgeA.manageProjectCall]
    rw [hc, hg]
    simp
  simp [BridgeA.rpc_endpoint, hm, hp, truthy, isStrEq, hcall, finishA_calls]

/-- Witness for `manage_project_update_patch`: a concrete update request
with params `{action: "update", project_id: "P1", name: "X"}`. -/
theorem manage_project_update_patch_witness :
    (BridgeA.rpc_endpoint "8181" nullBackend (Except.ok updateProjectReq)).2
      = [⟨BridgeA.HttpVerb.patch, "http://archon-server:8181/api/projects/P1",
          some (Json.obj [("project_id", Json.str "P1"), ("name", Json.str "X")])⟩] :=
  manage_project_update_patch "8181" nullBackend updateProjectReq
    [("action", Json.str "update"), ("project_id", Json.str "P1"),
      ("name", Json.str "X")] rfl rfl rfl rfl

/-- C2 counterexample: the claim is false as stated for the REST bridge
(variant A) - with the downstream search returning the object
`{"a": 1}`, the `"result"` field of the success envelope holds the JSON string
produced by `json.dumps`, not that object verbatim. -/
theorem rag_query_verbatim_counterexample :
    jsonField ((BridgeA.rpc_endpoint "8181" objBackend (Except.ok ragReq)).1.content)
        "result" = some (Json.str "\x7b\"a\": 1\x7d")
      ∧ ¬ (jsonField ((BridgeA.rpc_endpoint "8181" objBackend
            (Except.ok ragReq)).1.content) "result"
          = some (Json.obj [("a", Json.num 1)])) := by
  refine ⟨rfl, fun hcontra => ?_⟩
  rw [show jsonField ((BridgeA.rpc_endpoint "8181" objBackend
      (Except.ok ragReq)).1.content) "result"
      = some (Json.str "\x7b\"a\": 1\x7d") from rfl] at hcontra
  simp at hcontra

/-- C2 (amended): for every `perform_rag_query` request that does not
supply `match_count`, both bridge variants invoke the downstream search
with `match_count = 5`; on success the REST variant (A) places
`json.dumps(result)` - a string re-encoding of the downstream JSON value -
under `"result"`, while the in-process variant (B) embeds the tool
return value verbatim. -/
theorem rag_query_match_count_default (port : String) (backend : BridgeA.Backend)
    (tools : BridgeB.Tools) (req kvs : List (String × Json))
    (hm : req.lookup "method" = some (Json.str "perform_rag_query"))
    (hp : req.lookup "params" = some (Json.obj kvs))
    (hmc : kvs.lookup "match_count" = none) :
    (BridgeA.rpc_endpoint port backend (Except.ok req)).2
        = [⟨BridgeA.HttpVerb.post, "http://archon-server:" ++ port ++ "/api/rag/query",
            some (Json.obj [("query", (kvs.lookup "query").getD (Json.str "")),
              ("source_id", (kvs.lookup "source").getD Json.null),
              ("match_count", Json.num 5)])⟩]
      ∧ (∀ r : Json,
          backend ⟨BridgeA.HttpVerb.post, "http://archon-server:" ++ port ++ "/api/rag/query",
            some (Json.obj [("query", (kvs.lookup "query").getD (Json.str "")),
              ("source_id", (kvs.lookup "source").getD Json.null),
              ("match_count", Json.num 5)])⟩ = Except.ok r
          → (BridgeA.rpc_endpoint port backend (Except.ok req)).1
            = ⟨200, successContent ((req.lookup "id").getD (Json.num 1))
                (Json.str (dumps r))⟩)
      ∧ (BridgeB.rpc_endpoint tools (Except.ok req)).2
        = [⟨"rag_search_knowledge_base",
            [("query", (kvs.lookup "query").getD (Json.str "")),
              ("source_id", (kvs.lookup "source").getD Json.null),
              ("match_count", Json.num 5)]⟩]
      ∧ (∀ r : Json,
          tools ⟨"rag_search_knowledge_base",
            [("query", (kvs.lookup "query").getD (Json.str "")),
              ("source_id", (kvs.lookup "source").getD Json.null),
              ("match_count", Json.num 5)]⟩ = Except.ok r
          → (BridgeB.rpc_endpoint tools (Except.ok req)).1
            = ⟨200, successContent ((req.lookup "id").getD (Json.num 1)) r⟩) := by
  refine ⟨?_, ?_, ?_, ?_⟩
  · simp [BridgeA.rpc_endpoint, hm, hp, hmc, truthy, isStrEq,
      BridgeA.ragQueryCall, finishA_calls]
  · intro r hr
    have hfin := finishA_ok backend ((req.lookup "id").getD (Json.num 1)) _ r hr
    simp [BridgeA.rpc_endpoint, hm, hp, hmc, truthy, isStrEq,
      BridgeA.ragQueryCall, hfin]
  · simp [BridgeB.rpc_endpoint, hm, hp, hmc, truthy, isStrEq,
      BridgeB.ragQueryTool, finishB_calls]
  · intro r hr
    have hfin := finishB_ok tools ((req.lookup "id").getD (Json.num 1)) _ r hr
    simp [BridgeB.rpc_endpoint, hm, hp, hmc, truthy, isStrEq,
      BridgeB.ragQueryTool, hfin]

/-- Witness for `rag_query_match_count_default`: the request
`{method: "perform_rag_query", params: {query: "foo"}, id: 1}` against
oracles answering `{"a": 1}`. -/
theorem rag_query_match_count_default_witness :
    (BridgeA.rpc_endpoint "8181" objBackend (Except.ok ragReq)).2
        = [⟨BridgeA.HttpVerb.post, "http://archon-server:8181/api/rag/query",
            some (Json.obj [("query", Json.str "foo"), ("source_id", Json.null),
              ("match_count", Json.num 5)])⟩]
      ∧ (BridgeA.rpc_endpoint "8181" objBackend (Except.ok ragReq)).1
        = ⟨200, successContent (Json.num 1) (Json.str "\x7b\"a\": 1\x7d")⟩
      ∧ (BridgeB.rpc_endpoint objTools (Except.ok ragReq)).2
        = [⟨"rag_search_knowledge_base",
            [("query", Json.str "foo"), ("source_id", Json.null),
              ("match_count", Json.num 5)]⟩]
      ∧ (BridgeB.rpc_endpoint objTools (Except.ok ragReq)).1
        = ⟨200, successContent (Json.num 1) (Json.obj [("a", Json.num 1)])⟩ := by
  obtain ⟨h1, h2, h3, h4⟩ := rag_query_match_count_default "8181" objBackend objTools
    ragReq [("query", Json.str "foo")] rfl rfl rfl
  exact ⟨h1, h2 (Json.obj [("a", Json.num 1)]) rfl, h3,
    h4 (Json.obj [("a", Json.num 1)]) rfl⟩

/-- C8: the run loop of the demonstration agent terminates - for every
sequence of tracker responses, `run` executes at most `maxIterations`
work cycles (at most 10 under the default bound), and stops after a
single cycle as soon as the first cycle finds no actionable item. -/
theorem agent_run_bounded (env : Nat → Agent.BdReply) (maxIterations : Nat) :
    (Agent.run env maxIterations).1 ≤ maxIterations
      ∧ (Agent.run env Agent.defaultMaxIterations).1 ≤ 10
      ∧ (∀ i2, Agent.run_once env 0 = Except.ok (false, i2)
          → (Agent.run env maxIterations).1 ≤ 1) :=
  ⟨runFrom_fst_le env maxIterations 0,
   runFrom_fst_le env Agent.defaultMaxIterations 0,
   fun i2 h => runFrom_stop env maxIterations 0 i2 h⟩

/-- Witness for `agent_run_bounded`: a tracker with no ready work. -/
theorem agent_run_bounded_witness :
    (Agent.run idleEnv 10).1 ≤ 10
      ∧ (Agent.run idleEnv Agent.defaultMaxIterations).1 ≤ 10
      ∧ (Agent.run idleEnv 10).1 ≤ 1 := by
  obtain ⟨h1, h2, h3⟩ := agent_run_bounded idleEnv 10
  exact ⟨h1, h2, h3 1 rfl⟩

end Archon
